import Mathlib

/-!
Shallow embedding of the call-signaling and presence core of the
Internal-ChatApp backend: the in-memory presence registry (`activeUsers`
in server.js), the 1:1 `Call` and `GroupCall` mongoose models, the
Socket.IO call handlers of server.js, and the join/leave routes of
routes/groupCalls.js.  Times are modelled as natural-number milliseconds,
ids as strings; the document store lookup (`findById`) is passed in as an
`Option` argument and the persisted result is returned explicitly.
-/

abbrev UserId := String
abbrev SocketId := String

/-! ### Presence registry (the `activeUsers` Map in server.js) -/

/-- The in-memory `activeUsers` map: userId to the current socket id. -/
abbrev Registry := List (UserId × SocketId)

/-- `activeUsers.get(userId)`. -/
def regGet (reg : Registry) (u : UserId) : Option SocketId :=
  List.lookup u reg

/-- `activeUsers.set(userId, data)`: replaces any prior entry for `userId`. -/
def regSet (reg : Registry) (u : UserId) (s : SocketId) : Registry :=
  (u, s) :: reg.filter (fun p => p.1 ≠ u)

/-- `activeUsers.delete(userId)`. -/
def regDelete (reg : Registry) (u : UserId) : Registry :=
  reg.filter (fun p => p.1 ≠ u)

/-- The connection handler's registration step (server.js:93-98):
`activeUsers.set(socket.userId, { socketId: socket.id, ... })`. -/
def connectRegister (reg : Registry) (u : UserId) (sid : SocketId) : Registry :=
  regSet reg u sid

/-- The disconnect handler's deregistration step (server.js:1016):
`activeUsers.delete(socket.userId)`.  The disconnecting socket's own id
(`socket.id`) is in scope in the handler but never consulted. -/
def disconnectDeregister (reg : Registry) (u : UserId) (_sid : SocketId) : Registry :=
  regDelete reg u

/-! ### 1:1 Call model (models/Call.js) -/

inductive CallStatus
  | initiated | ringing | answered | declined | missed | ended
deriving DecidableEq, Repr

structure IceCandidate where
  candidate : String
  sdpMLineIndex : Nat
  sdpMid : String
deriving DecidableEq, Repr

structure Call where
  caller : UserId
  receiver : UserId
  callType : String
  status : CallStatus
  roomName : String
  startTime : Nat
  endTime : Option Nat
  duration : Nat
  offer : Option String
  answer : Option String
  iceCandidates : List IceCandidate
deriving DecidableEq, Repr

/-- The `calculatedDuration` virtual: `Math.floor((endTime - startTime)/1000)`
when `endTime` is set, else 0. -/
def Call.calculatedDuration (c : Call) : Nat :=
  match c.endTime with
  | some e => (e - c.startTime) / 1000
  | none => 0

/-- `callSchema.methods.endCall`: sets status `ended`, `endTime := now`, then
`duration := calculatedDuration` (computed from the new `endTime`). -/
def Call.endCall (c : Call) (now : Nat) : Call :=
  let c1 := { c with status := CallStatus.ended, endTime := some now }
  { c1 with duration := c1.calculatedDuration }

/-! ### 1:1 socket handlers (server.js) -/

/-- Events emitted by the `call-initiate` handler (server.js:326-382). -/
inductive InitEvent
  | errReceiverRequired
  | callInitiated (callId : String)
  | incomingCall (sid : SocketId) (callId : String)
  | errReceiverOffline (receiverId : UserId)
deriving DecidableEq, Repr

/-- The `call-initiate` handler: requires a truthy `receiverId`, then emits
the `call-initiated` confirmation to the caller, then looks the receiver up
in `activeUsers` and either emits `incoming-call` to the receiver's socket
or emits a `call-error` naming the offline receiver back to the caller. -/
def callInitiateHandler (receiverId callId : String) (reg : Registry) :
    List InitEvent :=
  if receiverId = "" then [InitEvent.errReceiverRequired]
  else
    InitEvent.callInitiated callId ::
      (match regGet reg receiverId with
       | some sid => [InitEvent.incomingCall sid callId]
       | none => [InitEvent.errReceiverOffline receiverId])

/-- Outcome reported by the `call-answer` handler (server.js:384-421). -/
inductive AnswerOutcome
  | errCallIdRequired
  | errCallNotFound
  | errNotAuthorized
  | answered (relayedToCaller : Bool)
deriving DecidableEq, Repr

/-- The `call-answer` handler: requires `callId`, loads the call, checks
`call.receiver.toString() === socket.userId`, then unconditionally sets
`status = "answered"`, stores the SDP answer when one is provided, saves,
and relays `call-answered` to the caller's socket when the caller is in
`activeUsers`.  Returns the outcome and the persisted call state. -/
def callAnswerHandler (callId : String) (ans : Option String) (u : UserId)
    (callOpt : Option Call) (reg : Registry) : AnswerOutcome × Option Call :=
  if callId = "" then (AnswerOutcome.errCallIdRequired, callOpt)
  else
    match callOpt with
    | none => (AnswerOutcome.errCallNotFound, none)
    | some c =>
      if c.receiver ≠ u then (AnswerOutcome.errNotAuthorized, some c)
      else
        let c2 := { c with
          status := CallStatus.answered,
          answer := if ans.isSome then ans else c.answer }
        (AnswerOutcome.answered (regGet reg c.caller).isSome, some c2)

/-- Outcome reported by the `call-end` handler (server.js:458-498). -/
inductive EndOutcome
  | errCallNotFound
  | errNotAuthorized
  | ended (relayedToOther : Bool)
deriving DecidableEq, Repr

/-- The `call-end` handler: loads the call, authorizes caller or receiver,
invokes `call.endCall()` and relays `call-ended` to the other party's
socket when present.  Returns the outcome and the persisted call state. -/
def callEndHandler (u : UserId) (callOpt : Option Call) (reg : Registry)
    (now : Nat) : EndOutcome × Option Call :=
  match callOpt with
  | none => (EndOutcome.errCallNotFound, none)
  | some c =>
    if c.caller ≠ u ∧ c.receiver ≠ u then (EndOutcome.errNotAuthorized, some c)
    else
      let c2 := c.endCall now
      let otherId := if c.caller = u then c.receiver else c.caller
      (EndOutcome.ended (regGet reg otherId).isSome, some c2)

/-- Events emitted by the `ice-candidate` handler (server.js:566-604). -/
inductive IceEvent
  | errRequired
  | errCallNotFound
  | forwarded (sid : SocketId) (candidate : String)
deriving DecidableEq, Repr

/-- The `ice-candidate` handler: requires `callId` and `candidate`, loads the
call, then appends the candidate to `call.iceCandidates` and saves inside a
`try { ... } catch (_) {}` (`saveOk` says whether that persistence attempt
succeeded; a failure is swallowed), and finally forwards the candidate to the
other party's socket when that party is in `activeUsers`.  Returns the
emitted events and the persisted call state. -/
def iceCandidateHandler (callId : String) (cand : Option IceCandidate)
    (u : UserId) (callOpt : Option Call) (reg : Registry) (saveOk : Bool) :
    List IceEvent × Option Call :=
  if callId = "" ∨ cand.isNone then ([IceEvent.errRequired], callOpt)
  else
    match callOpt, cand with
    | none, _ => ([IceEvent.errCallNotFound], none)
    | some c, none => ([IceEvent.errRequired], some c)
    | some c, some cd =>
      let persisted :=
        if saveOk then { c with iceCandidates := c.iceCandidates ++ [cd] } else c
      let otherId := if c.caller = u then c.receiver else c.caller
      match regGet reg otherId with
      | some sid => ([IceEvent.forwarded sid cd.candidate], some persisted)
      | none => ([], some persisted)

/-! ### GroupCall model (models/GroupCall.js) -/

inductive GroupStatus
  | initiated | active | ended
deriving DecidableEq, Repr

inductive Role
  | host | participant
deriving DecidableEq, Repr

structure Participant where
  user : UserId
  joinedAt : Nat
  leftAt : Option Nat
  isMuted : Bool
  isVideoEnabled : Bool
  isActive : Bool
  role : Role
deriving DecidableEq, Repr

structure GroupCall where
  group : String
  initiator : UserId
  callType : String
  status : GroupStatus
  roomName : String
  participants : List Participant
  startTime : Nat
  endTime : Option Nat
  duration : Nat
  maxParticipants : Nat
deriving DecidableEq, Repr

/-- `Array.prototype.find`-style in-place update of the first element
satisfying `p` (mongoose methods mutate exactly the first match). -/
def updateFirst (p : α → Bool) (f : α → α) : List α → List α
  | [] => []
  | x :: xs => if p x then f x :: xs else x :: updateFirst p f xs

/-- The `calculatedDuration` virtual of the group-call schema. -/
def GroupCall.calculatedDuration (gc : GroupCall) : Nat :=
  match gc.endTime with
  | some e => (e - gc.startTime) / 1000
  | none => 0

/-- The `activeParticipantsCount` virtual. -/
def GroupCall.activeParticipantsCount (gc : GroupCall) : Nat :=
  (gc.participants.filter (fun p => p.isActive)).length

/-- `getActiveParticipants`. -/
def GroupCall.getActiveParticipants (gc : GroupCall) : List Participant :=
  gc.participants.filter (fun p => p.isActive)

/-- `isUserInCall`: some roster entry for `u` with `isActive`. -/
def GroupCall.isUserInCall (gc : GroupCall) (u : UserId) : Bool :=
  gc.participants.any (fun p => p.user = u ∧ p.isActive)

/-- `addParticipant`: reactivate the existing entry for `u` (set
`isActive := true`, refresh `joinedAt`, clear `leftAt`) when one exists,
otherwise push a new entry with the schema defaults. -/
def GroupCall.addParticipant (gc : GroupCall) (u : UserId) (role : Role)
    (now : Nat) : GroupCall :=
  if gc.participants.any (fun p => p.user = u) then
    let ps := updateFirst (fun p => p.user = u)
      (fun p => { p with isActive := true, joinedAt := now, leftAt := none })
      gc.participants
    { gc with participants := ps }
  else
    let entry : Participant :=
      { user := u, role := role, joinedAt := now, leftAt := none,
        isMuted := false, isVideoEnabled := true, isActive := true }
    { gc with participants := gc.participants ++ [entry] }

/-- `removeParticipant`: mark the entry for `u` inactive with a `leftAt`
timestamp (no-op on the roster when `u` has no entry). -/
def GroupCall.removeParticipant (gc : GroupCall) (u : UserId) (now : Nat) :
    GroupCall :=
  let ps := updateFirst (fun p => p.user = u)
    (fun p => { p with isActive := false, leftAt := some now })
    gc.participants
  { gc with participants := ps }

/-- `endCall`: set status `ended`, `endTime := now`, `duration` from the new
`endTime`, then mark every participant inactive, stamping `leftAt` when it
was unset. -/
def GroupCall.endCall (gc : GroupCall) (now : Nat) : GroupCall :=
  let gc1 := { gc with status := GroupStatus.ended, endTime := some now }
  let gc2 := { gc1 with duration := gc1.calculatedDuration }
  let ps := gc2.participants.map
    (fun p => { p with isActive := false, leftAt := some (p.leftAt.getD now) })
  { gc2 with participants := ps }

/-! ### Group-call REST routes (routes/groupCalls.js) -/

/-- Response of `POST /:callId/join` (routes/groupCalls.js:131-207). -/
inductive JoinResp
  | notFound | callNotActive | notAMember | callFull | ok
deriving DecidableEq, Repr

/-- The join route: 404 when the call is missing; 400 `CallNotActive` unless
status is `initiated` or `active`; 403 unless `u` is a group member; 400
`Call is full` when the active-participant count has reached
`maxParticipants`; otherwise `addParticipant` and promote `initiated` to
`active`.  Returns the response and the persisted call state. -/
def joinRoute (gcOpt : Option GroupCall) (u : UserId) (members : List UserId)
    (now : Nat) : JoinResp × Option GroupCall :=
  match gcOpt with
  | none => (JoinResp.notFound, none)
  | some gc =>
    if gc.status ≠ GroupStatus.initiated ∧ gc.status ≠ GroupStatus.active then
      (JoinResp.callNotActive, some gc)
    else if ¬ members.contains u then (JoinResp.notAMember, some gc)
    else if gc.getActiveParticipants.length ≥ gc.maxParticipants then
      (JoinResp.callFull, some gc)
    else
      let gc2 := gc.addParticipant u Role.participant now
      let gc3 := if gc2.status = GroupStatus.initiated then
        { gc2 with status := GroupStatus.active } else gc2
      (JoinResp.ok, some gc3)

/-- Response of `POST /:callId/leave` (routes/groupCalls.js:210-257). -/
inductive LeaveResp
  | notFound | notInCall | ok
deriving DecidableEq, Repr

/-- The leave route: 404 when the call is missing; 400 `You are not in this
call` unless `isUserInCall`; otherwise `removeParticipant`, then `endCall`
when no active participant remains.  Returns the response and the persisted
call state. -/
def leaveRoute (gcOpt : Option GroupCall) (u : UserId) (now : Nat) :
    LeaveResp × Option GroupCall :=
  match gcOpt with
  | none => (LeaveResp.notFound, none)
  | some gc =>
    if ¬ gc.isUserInCall u then (LeaveResp.notInCall, some gc)
    else
      let gc2 := gc.removeParticipant u now
      let gc3 := if gc2.getActiveParticipants.length = 0 then gc2.endCall now
        else gc2
      (LeaveResp.ok, some gc3)

/-! ### Group-call socket handlers (server.js) -/

/-- Events emitted by the `group-call-leave` handler (server.js:742-836). -/
inductive GroupLeaveEvent
  | errRequired
  | groupCallEnded (sid : SocketId)
  | participantLeft (sid : SocketId)
  | groupCallLeft
deriving DecidableEq, Repr

/-- The `group-call-leave` handler: requires `callId` and `groupId`; when the
acting user is the call's initiator, first awaits `groupCall.endCall()` and
then walks the same (now mutated) participant list emitting
`group-call-ended` to each participant that is still `isActive` and present
in `activeUsers`; otherwise emits `group-call-participant-left` to every
other active participant with presence.  Always confirms with
`group-call-left` to the leaver.  Returns the events in emission order and
the persisted call state. -/
def groupCallLeaveHandler (callId groupId : String) (u : UserId)
    (gcOpt : Option GroupCall) (reg : Registry) (now : Nat) :
    List GroupLeaveEvent × Option GroupCall :=
  if callId = "" ∨ groupId = "" then ([GroupLeaveEvent.errRequired], gcOpt)
  else
    match gcOpt with
    | none => ([GroupLeaveEvent.groupCallLeft], none)
    | some gc =>
      if gc.initiator = u then
        let gc2 := gc.endCall now
        let evs := gc2.participants.filterMap (fun p =>
          if p.isActive then (regGet reg p.user).map GroupLeaveEvent.groupCallEnded
          else none)
        (evs ++ [GroupLeaveEvent.groupCallLeft], some gc2)
      else
        let evs := gc.participants.filterMap (fun p =>
          if p.user ≠ u ∧ p.isActive then
            (regGet reg p.user).map GroupLeaveEvent.participantLeft
          else none)
        (evs ++ [GroupLeaveEvent.groupCallLeft], some gc)

/-! ### Sample records used by concrete evaluations -/

/-- A 1:1 call between caller `a` and receiver `b` that has already ended
at t = 10000ms with a recorded duration of 10 seconds. -/
def endedCallAB : Call :=
  { caller := "a", receiver := "b", callType := "voice",
    status := CallStatus.ended, roomName := "room1", startTime := 0,
    endTime := some 10000, duration := 10, offer := none, answer := none,
    iceCandidates := [] }

/-- A 1:1 call between `a` and `b` still in `initiated` state. -/
def initiatedCallAB : Call :=
  { caller := "a", receiver := "b", callType := "voice",
    status := CallStatus.initiated, roomName := "room1", startTime := 0,
    endTime := none, duration := 0, offer := none, answer := none,
    iceCandidates := [] }

/-- The host participant `h` of the sample group call, active. -/
def hostH : Participant :=
  { user := "h", joinedAt := 0, leftAt := none, isMuted := false,
    isVideoEnabled := true, isActive := true, role := Role.host }

/-- An active ordinary participant `a`. -/
def partA : Participant :=
  { user := "a", joinedAt := 100, leftAt := none, isMuted := false,
    isVideoEnabled := true, isActive := true, role := Role.participant }

/-- A group call with host `h` and participant `a` both active, capacity 2. -/
def fullCallHA : GroupCall :=
  { group := "g1", initiator := "h", callType := "voice",
    status := GroupStatus.active, roomName := "groom1",
    participants := [hostH, partA], startTime := 0, endTime := none,
    duration := 0, maxParticipants := 2 }

/-- A group call in which `a` has already left (inactive, `leftAt` set). -/
def leftCallHA : GroupCall :=
  { group := "g1", initiator := "h", callType := "voice",
    status := GroupStatus.active, roomName := "groom1",
    participants := [hostH, { partA with isActive := false, leftAt := some 200 }],
    startTime := 0, endTime := none, duration := 0, maxParticipants := 10 }

/-! ### Helper lemmas -/

theorem regGet_regDelete_self (reg : Registry) (u : UserId) :
    regGet (regDelete reg u) u = none := by
  induction reg with
  | nil => rfl
  | cons p reg ih =>
    obtain ⟨k, v⟩ := p
    by_cases h : k = u
    · simpa [regDelete, List.filter_cons, h] using ih
    · have hbeq : (u == k) = false := by simp [Ne.symm h]
      simpa [regDelete, regGet, List.filter_cons, h, List.lookup, hbeq] using ih

theorem updateFirst_length (p : α → Bool) (f : α → α) (l : List α) :
    (updateFirst p f l).length = l.length := by
  induction l with
  | nil => rfl
  | cons x xs ih => cases h : p x <;> simp [updateFirst, h, ih]

theorem map_updateFirst (p : α → Bool) (f : α → α) (g : α → β)
    (hg : ∀ a, g (f a) = g a) (l : List α) :
    (updateFirst p f l).map g = l.map g := by
  induction l with
  | nil => rfl
  | cons x xs ih => cases h : p x <;> simp [updateFirst, h, ih, hg]

theorem any_updateFirst (p q : α → Bool) (f : α → α)
    (hf : ∀ a, q (f a) = q a) (l : List α) :
    (updateFirst p f l).any q = l.any q := by
  induction l with
  | nil => rfl
  | cons x xs ih => cases h : p x <;> simp [updateFirst, h, ih, hf]

theorem updateFirst_updateFirst (p : α → Bool) (f g : α → α)
    (hg : ∀ a, p (g a) = p a) (l : List α) :
    updateFirst p f (updateFirst p g l) = updateFirst p (fun a => f (g a)) l := by
  induction l with
  | nil => rfl
  | cons x xs ih => cases h : p x <;> simp [updateFirst, h, ih, hg]

theorem find?_updateFirst (p : α → Bool) (f : α → α)
    (hf : ∀ a, p (f a) = p a) (l : List α) (hl : l.any p) :
    (updateFirst p f l).find? p = (l.find? p).map f := by
  induction l with
  | nil => simp at hl
  | cons x xs ih =>
    cases h : p x
    · have hxs : xs.any p := by simpa [List.any_cons, h] using hl
      simp [updateFirst, h, List.find?_cons_of_neg, ih hxs]
    · simp [updateFirst, h, List.find?_cons_of_pos, hf x, h]

/-! ### Claim theorems -/

/-- C3 counterexample: user `u1` connects with socket `sOld`, reconnects with
socket `sNew` (replacing the entry), and then the stale disconnect of `sOld`
arrives.  The claim says the registry must still map `u1` to `sNew`; in the
code the disconnect handler deletes by userId alone, so the entry is gone. -/
theorem c3_stale_disconnect_evicts :
    regGet (disconnectDeregister
      (connectRegister (connectRegister [] "u1" "sOld") "u1" "sNew")
      "u1" "sOld") "u1" = none ∧
    regGet (disconnectDeregister
      (connectRegister (connectRegister [] "u1" "sOld") "u1" "sNew")
      "u1" "sOld") "u1" ≠ some "sNew" := by
  constructor
  · rfl
  · decide

/-- C3 (amended): the disconnect handler removes the presence entry for the
disconnecting userId unconditionally — it never compares the disconnecting
socket handle with the registered one, so after any stale disconnect the
lookup is `none` even though a newer registration existed. -/
theorem c3_deregister_unconditional (reg : Registry) (u : UserId)
    (sOld sNew : SocketId) :
    regGet (disconnectDeregister (connectRegister reg u sNew) u sOld) u = none := by
  unfold disconnectDeregister connectRegister
  exact regGet_regDelete_self _ _

/-- C5: when the receiver is in the presence registry, `call-initiate` emits
exactly one confirmation to the caller and exactly one `incoming-call` to the
receiver's current socket; when the receiver is absent, the caller gets an
explicit error naming the unreachable receiver. -/
theorem c5_initiate_delivery (rid cid : String) (reg : Registry)
    (h : rid ≠ "") :
    (∀ sid, regGet reg rid = some sid →
      callInitiateHandler rid cid reg =
        [InitEvent.callInitiated cid, InitEvent.incomingCall sid cid]) ∧
    (regGet reg rid = none →
      callInitiateHandler rid cid reg =
        [InitEvent.callInitiated cid, InitEvent.errReceiverOffline rid]) := by
  constructor
  · intro sid hsid
    simp [callInitiateHandler, h, hsid]
  · intro hnone
    simp [callInitiateHandler, h, hnone]

/-- Witness for C5 at a concrete input: receiver `b` online on socket `s7`. -/
theorem c5_initiate_delivery_witness :
    callInitiateHandler "b" "call9" [("b", "s7")] =
      [InitEvent.callInitiated "call9", InitEvent.incomingCall "s7" "call9"] :=
  (c5_initiate_delivery "b" "call9" [("b", "s7")] (by decide)).1 "s7" (by decide)

/-- C10: the `call-initiated` confirmation is emitted before the presence
lookup, so with a non-empty `receiverId` and an offline receiver the caller
receives the confirmation first and then the offline error. -/
theorem c10_confirmation_precedes_presence_check (rid cid : String)
    (reg : Registry) (h : rid ≠ "") (hoff : regGet reg rid = none) :
    callInitiateHandler rid cid reg =
      [InitEvent.callInitiated cid, InitEvent.errReceiverOffline rid] := by
  simp [callInitiateHandler, h, hoff]

/-- Witness for C10 at a concrete input: empty registry. -/
theorem c10_confirmation_precedes_presence_check_witness :
    callInitiateHandler "b" "call9" [] =
      [InitEvent.callInitiated "call9", InitEvent.errReceiverOffline "b"] :=
  c10_confirmation_precedes_presence_check "b" "call9" [] (by decide) rfl

/-- C1 counterexample: the receiver answers a call whose status is already
`ended`.  The claim requires a `CallNotActive` rejection with the status left
unchanged; the handler instead succeeds and moves the status to `answered`. -/
theorem c1_answer_ignores_status_counterexample :
    (callAnswerHandler "call1" (some "sdp") "b" (some endedCallAB) []).1 =
      AnswerOutcome.answered false ∧
    (callAnswerHandler "call1" (some "sdp") "b" (some endedCallAB) []).2 =
      some { endedCallAB with status := CallStatus.answered, answer := some "sdp" } ∧
    endedCallAB.status = CallStatus.ended := by
  refine ⟨rfl, ?_, rfl⟩
  decide

/-- C1 (amended): `call-answer` succeeds iff the acting user equals
`call.receiver` — there is no status precondition at all.  On an
authorization failure the persisted call is unchanged; on success the status
becomes `answered` (from any prior status, including `ended`) and the SDP
answer is stored when provided. -/
theorem c1_answer_amended (callId : String) (ans : Option String) (u : UserId)
    (c : Call) (reg : Registry) (hcid : callId ≠ "") :
    (u ≠ c.receiver →
      callAnswerHandler callId ans u (some c) reg =
        (AnswerOutcome.errNotAuthorized, some c)) ∧
    (u = c.receiver →
      callAnswerHandler callId ans u (some c) reg =
        (AnswerOutcome.answered (regGet reg c.caller).isSome,
         some { c with status := CallStatus.answered,
                       answer := if ans.isSome then ans else c.answer })) := by
  constructor
  · intro hne
    simp [callAnswerHandler, hcid, Ne.symm hne]
  · intro heq
    simp [callAnswerHandler, hcid, heq]

/-- Witness for C1's amended theorem: receiver `b` answers `endedCallAB`. -/
theorem c1_answer_amended_witness :
    callAnswerHandler "call1" (some "sdp") "b" (some endedCallAB) [] =
      (AnswerOutcome.answered false,
       some { endedCallAB with status := CallStatus.answered,
                               answer := some "sdp" }) := by
  have h :=
    (c1_answer_amended "call1" (some "sdp") "b" endedCallAB [] (by decide)).2 rfl
  simpa using h

/-- C4 counterexample: ending `endedCallAB` (already ended at 10000ms with
duration 10s) again at 20000ms overwrites `endTime` to 20000 and recomputes
`duration` to 20 — the fields do change a second time. -/
theorem c4_end_not_idempotent_counterexample :
    ((callEndHandler "a" (some endedCallAB) [] 20000).2.map
      (fun c => (c.endTime, c.duration))) = some (some 20000, 20) ∧
    (endedCallAB.endTime, endedCallAB.duration) = (some 10000, 10) := by
  decide

/-- C4 (amended): `call-end` is not idempotent in outcome — on any authorized
invocation, including one on an already-`ended` call, the handler re-runs
`endCall`, overwriting `endTime` with the invocation time and recomputing
`duration` from it, so both fields change whenever the new time differs. -/
theorem c4_end_overwrites (c : Call) (u : UserId) (reg : Registry) (now : Nat)
    (hauth : c.caller = u ∨ c.receiver = u) :
    (callEndHandler u (some c) reg now).2 = some (c.endCall now) ∧
    (c.endCall now).endTime = some now ∧
    (c.endCall now).duration = (now - c.startTime) / 1000 := by
  have hguard : ¬ (c.caller ≠ u ∧ c.receiver ≠ u) := by
    rcases hauth with h | h <;> simp [h]
  refine ⟨?_, rfl, rfl⟩
  simp [callEndHandler, hguard]

/-- Witness for C4's amended theorem: caller `a` re-ends `endedCallAB`. -/
theorem c4_end_overwrites_witness :
    (callEndHandler "a" (some endedCallAB) [] 20000).2 =
      some (endedCallAB.endCall 20000) ∧
    (endedCallAB.endCall 20000).endTime = some 20000 ∧
    (endedCallAB.endCall 20000).duration = (20000 - endedCallAB.startTime) / 1000 :=
  c4_end_overwrites endedCallAB "a" [] 20000 (Or.inl rfl)

/-- C9: a failed persistence of the ICE candidate (`saveOk = false`, the
swallowed `try { push; save } catch (_) {}`) does not abort the relay: the
events emitted are exactly the forward to the other party's socket, the same
as when persistence succeeds, and the persisted call is left unchanged by
the failed save. -/
theorem c9_ice_relay_survives_save_failure (callId : String)
    (cd : IceCandidate) (u : UserId) (c : Call) (reg : Registry)
    (sid : SocketId) (hcid : callId ≠ "")
    (hsid : regGet reg (if c.caller = u then c.receiver else c.caller) = some sid) :
    (iceCandidateHandler callId (some cd) u (some c) reg false).1 =
      [IceEvent.forwarded sid cd.candidate] ∧
    (iceCandidateHandler callId (some cd) u (some c) reg true).1 =
      [IceEvent.forwarded sid cd.candidate] ∧
    (iceCandidateHandler callId (some cd) u (some c) reg false).2 = some c := by
  refine ⟨?_, ?_, ?_⟩ <;> simp [iceCandidateHandler, hcid, hsid]

/-- Witness for C9: candidate on `initiatedCallAB` from caller `a` with the
receiver `b` online, evaluated with the persistence attempt failing. -/
theorem c9_ice_relay_survives_save_failure_witness :
    (iceCandidateHandler "call1" (some ⟨"cand0", 0, "m0"⟩) "a"
      (some initiatedCallAB) [("b", "s2")] false).1 =
      [IceEvent.forwarded "s2" "cand0"] ∧
    (iceCandidateHandler "call1" (some ⟨"cand0", 0, "m0"⟩) "a"
      (some initiatedCallAB) [("b", "s2")] true).1 =
      [IceEvent.forwarded "s2" "cand0"] ∧
    (iceCandidateHandler "call1" (some ⟨"cand0", 0, "m0"⟩) "a"
      (some initiatedCallAB) [("b", "s2")] false).2 = some initiatedCallAB :=
  c9_ice_relay_survives_save_failure "call1" ⟨"cand0", 0, "m0"⟩ "a"
    initiatedCallAB [("b", "s2")] "s2" (by decide) (by decide)

/-- C6: when the active-participant count has reached `maxParticipants`, the
join route never mutates the persisted call, and for a group member hitting a
call in a joinable status the response is exactly `CallFull`. -/
theorem c6_join_full_rejected (gc : GroupCall) (u : UserId)
    (members : List UserId) (now : Nat)
    (hfull : gc.getActiveParticipants.length ≥ gc.maxParticipants) :
    (joinRoute (some gc) u members now).2 = some gc ∧
    ((gc.status = GroupStatus.initiated ∨ gc.status = GroupStatus.active) →
      members.contains u →
      (joinRoute (some gc) u members now).1 = JoinResp.callFull) := by
  constructor
  · by_cases h1 : gc.status ≠ GroupStatus.initiated ∧ gc.status ≠ GroupStatus.active
    · simp [joinRoute, h1]
    · by_cases h2 : u ∈ members
      · simp [joinRoute, h1, h2, hfull]
      · simp [joinRoute, h1, h2]
  · intro hst hmem
    have h1 : ¬(gc.status ≠ GroupStatus.initiated ∧ gc.status ≠ GroupStatus.active) := by
      rcases hst with h | h <;> simp [h]
    have hm : u ∈ members := by simpa using hmem
    simp [joinRoute, h1, hm, hfull]

/-- Witness for C6: member `b` tries to join `fullCallHA` (capacity 2, both
slots active) — the response is `CallFull` and the call is unchanged. -/
theorem c6_join_full_rejected_witness :
    (joinRoute (some fullCallHA) "b" ["h", "a", "b"] 300).2 = some fullCallHA ∧
    (joinRoute (some fullCallHA) "b" ["h", "a", "b"] 300).1 = JoinResp.callFull := by
  have h := c6_join_full_rejected fullCallHA "b" ["h", "a", "b"] 300 (by decide)
  exact ⟨h.1, h.2 (Or.inr rfl) (by decide)⟩

/-- C8 counterexample: participant `a` already left `leftCallHA`
(`isActive = false`), and leaves again.  The claim requires a no-op success;
the route instead rejects with the `You are not in this call` error. -/
theorem c8_leave_twice_rejected_counterexample :
    leaveRoute (some leftCallHA) "a" 5000 = (LeaveResp.notInCall, some leftCallHA) ∧
    LeaveResp.notInCall ≠ LeaveResp.ok := by
  constructor
  · decide
  · decide

/-- C8 (amended): a leave request by a user who is not currently an active
participant (including a second leave after already leaving) is rejected with
the `You are not in this call` error (HTTP 400), and the persisted call is
left unchanged — it is an error, not an idempotent no-op success. -/
theorem c8_leave_not_in_call_rejected (gc : GroupCall) (u : UserId) (now : Nat)
    (h : ¬ gc.isUserInCall u) :
    leaveRoute (some gc) u now = (LeaveResp.notInCall, some gc) := by
  simp [leaveRoute, h]

/-- Witness for C8's amended theorem: `a` re-leaves `leftCallHA`. -/
theorem c8_leave_not_in_call_rejected_witness :
    leaveRoute (some leftCallHA) "a" 5000 = (LeaveResp.notInCall, some leftCallHA) :=
  c8_leave_not_in_call_rejected leftCallHA "a" 5000 (by decide)

/-- C2 (evaluation at the failing input): host `h` leaves `fullCallHA` while
`h` and `a` are both active and both present in the registry.  The handler
awaits `endCall()` first — which marks every participant inactive — and only
then walks the participant list filtering on `isActive`, so no
`group-call-ended` notification is emitted at all (only the `group-call-left`
self-confirmation), although the persisted status does become `ended` and
`a` was an active participant with a presence entry. -/
theorem c2_host_leave_sends_no_end_notifications :
    (groupCallLeaveHandler "call1" "g1" "h" (some fullCallHA)
      [("h", "s1"), ("a", "s2")] 9000).1 = [GroupLeaveEvent.groupCallLeft] ∧
    ((groupCallLeaveHandler "call1" "g1" "h" (some fullCallHA)
      [("h", "s1"), ("a", "s2")] 9000).2.map (fun g => g.status)) =
      some GroupStatus.ended ∧
    fullCallHA.isUserInCall "a" = true ∧
    regGet [("h", "s1"), ("a", "s2")] "a" = some "s2" := by
  refine ⟨?_, ?_, ?_, ?_⟩ <;> decide

theorem addParticipant_participants_pos (gc : GroupCall) (u : UserId)
    (r : Role) (now : Nat)
    (h : gc.participants.any (fun p => p.user = u)) :
    (gc.addParticipant u r now).participants =
      updateFirst (fun p => p.user = u)
        (fun p => { p with isActive := true, joinedAt := now, leftAt := none })
        gc.participants := by
  simp only [GroupCall.addParticipant]
  rw [if_pos h]

theorem addParticipant_participants_neg (gc : GroupCall) (u : UserId)
    (r : Role) (now : Nat)
    (h : ¬ gc.participants.any (fun p => p.user = u)) :
    (gc.addParticipant u r now).participants =
      gc.participants ++
        [{ user := u, role := r, joinedAt := now, leftAt := none,
           isMuted := false, isVideoEnabled := true, isActive := true }] := by
  simp only [GroupCall.addParticipant]
  rw [if_neg h]

theorem removeParticipant_participants (gc : GroupCall) (u : UserId)
    (now : Nat) :
    (gc.removeParticipant u now).participants =
      updateFirst (fun p => p.user = u)
        (fun p => { p with isActive := false, leftAt := some now })
        gc.participants := rfl

theorem endCall_participants (gc : GroupCall) (now : Nat) :
    (gc.endCall now).participants =
      gc.participants.map
        (fun p => { p with isActive := false, leftAt := some (p.leftAt.getD now) }) :=
  rfl

/-- C7: the roster keys stay duplicate-free under `addParticipant`,
`removeParticipant` and `endCall`, and a leave-then-rejoin for a user already
in the roster reactivates the existing entry (final `isActive = true`,
`leftAt` cleared) without changing the roster length. -/
theorem c7_roster_unique_and_rejoin (gc : GroupCall) (u : UserId) (r : Role)
    (t1 t2 : Nat)
    (hnodup : (gc.participants.map (fun p => p.user)).Nodup) :
    ((gc.addParticipant u r t1).participants.map (fun p => p.user)).Nodup ∧
    ((gc.removeParticipant u t1).participants.map (fun p => p.user)).Nodup ∧
    ((gc.endCall t1).participants.map (fun p => p.user)).Nodup ∧
    (gc.participants.any (fun p => p.user = u) →
      ((gc.removeParticipant u t1).addParticipant u r t2).participants.length =
        gc.participants.length ∧
      ((((gc.removeParticipant u t1).addParticipant u r t2).participants.find?
          (fun p => p.user = u)).map (fun p => (p.isActive, p.leftAt))) =
        some (true, none)) := by
  refine ⟨?_, ?_, ?_, ?_⟩
  · by_cases hany : gc.participants.any (fun p => p.user = u)
    · rw [addParticipant_participants_pos gc u r t1 hany,
        map_updateFirst (fun p => p.user = u)
          (fun p => { p with isActive := true, joinedAt := t1, leftAt := none })
          (fun p => p.user) (fun a => rfl) gc.participants]
      exact hnodup
    · rw [addParticipant_participants_neg gc u r t1 hany]
      simp only [List.map_append, List.map_cons, List.map_nil]
      rw [List.nodup_append]
      refine ⟨hnodup, List.nodup_singleton u, ?_⟩
      intro x hx hxu
      simp only [List.mem_singleton] at hxu
      subst hxu
      simp only [List.any_eq_true, decide_eq_true_eq] at hany
      obtain ⟨p, hp, hpu⟩ := List.mem_map.mp hx
      exact hany ⟨p, hp, hpu⟩
  · rw [removeParticipant_participants gc u t1,
      map_updateFirst (fun p => p.user = u)
        (fun p => { p with isActive := false, leftAt := some t1 })
        (fun p => p.user) (fun a => rfl) gc.participants]
    exact hnodup
  · rw [endCall_participants gc t1, List.map_map]
    simpa [Function.comp] using hnodup
  · intro hany
    have hany2 : (gc.removeParticipant u t1).participants.any
        (fun p => p.user = u) = true := by
      rw [removeParticipant_participants gc u t1,
        any_updateFirst (fun p => p.user = u) (fun p => p.user = u)
          (fun p => { p with isActive := false, leftAt := some t1 })
          (fun a => rfl) gc.participants]
      exact hany
    have hroster : ((gc.removeParticipant u t1).addParticipant u r t2).participants
        = updateFirst (fun p => p.user = u)
            (fun p => { p with isActive := true, joinedAt := t2, leftAt := none })
            gc.participants := by
      rw [addParticipant_participants_pos (gc.removeParticipant u t1) u r t2 hany2,
        removeParticipant_participants gc u t1,
        updateFirst_updateFirst (fun p => p.user = u)
          (fun p => { p with isActive := true, joinedAt := t2, leftAt := none })
          (fun p => { p with isActive := false, leftAt := some t1 })
          (fun a => rfl) gc.participants]
    constructor
    · rw [hroster, updateFirst_length]
    · rw [hroster,
        find?_updateFirst (fun p => p.user = u)
          (fun p => { p with isActive := true, joinedAt := t2, leftAt := none })
          (fun a => rfl) gc.participants hany]
      cases hfind : gc.participants.find? (fun p => p.user = u) with
      | none =>
        rw [List.find?_eq_none] at hfind
        simp only [List.any_eq_true, decide_eq_true_eq] at hany
        obtain ⟨p, hp, hpu⟩ := hany
        exact absurd (by simpa using hpu) (by simpa using hfind p hp)
      | some p0 => simp

/-- Witness for C7: `a` leaves and rejoins `fullCallHA`. -/
theorem c7_roster_unique_and_rejoin_witness :
    ((fullCallHA.addParticipant "a" Role.participant 300).participants.map
      (fun p => p.user)).Nodup ∧
    ((fullCallHA.removeParticipant "a" 300).participants.map
      (fun p => p.user)).Nodup ∧
    ((fullCallHA.endCall 300).participants.map (fun p => p.user)).Nodup ∧
    (((fullCallHA.removeParticipant "a" 300).addParticipant "a"
        Role.participant 400).participants.length =
      fullCallHA.participants.length ∧
    ((((fullCallHA.removeParticipant "a" 300).addParticipant "a"
        Role.participant 400).participants.find?
        (fun p => p.user = "a")).map (fun p => (p.isActive, p.leftAt))) =
      some (true, none)) := by
  have h := c7_roster_unique_and_rejoin fullCallHA "a" Role.participant 300 400
    (by decide)
  exact ⟨h.1, h.2.1, h.2.2.1, h.2.2.2 (by decide)⟩
